import Mathlib

/-!
Verification of the dropout video-addon client core.

This file gives a shallow embedding, in Lean, of the parts of the Python
sources relevant to the frozen claims:
- resources/lib/api.py : session construction, logout, pagination
  collection, page parsing, media dispatch and variant parsing, movie
  resolution, play-state parsing and merging;
- resources/lib/config.py : persistent-store reads and writes for
  credentials, play states and recent searches.

Raw JSON payloads are modelled by an inductive JSON type; Python dict
access is modelled by getItem (raising KeyError), pyGet (the one-argument
get, which yields none both when the key is absent and when its value is
null) and pyGetD (the two-argument get).  Python exceptions are modelled
by the Except monad over PyErr; datetimes are modelled as integers, with
strptime embedded as a real format parser so that date-format failures
surface as ValueError exactly where the code raises them.  Network and
filesystem boundaries are explicit arguments (server functions, store
records) threaded through the definitions.
-/

/-- JSON values, as produced by json.load in the Python sources. -/
inductive JSON where
  | null
  | bool (b : Bool)
  | num (n : Int)
  | str (s : String)
  | arr (elems : List JSON)
  | obj (fields : List (String × JSON))

/-- Python exception kinds that the embedded code can raise.  ValueError
is the only kind caught by the batch parser in api.py. -/
inductive PyErr where
  | valueError (msg : String)
  | keyError (key : String)
  | typeError (msg : String)
  | assertionError
deriving DecidableEq, Repr

/-- Lookup of a key in the field list of a JSON object. -/
def JSON.lookupField : List (String × JSON) → String → Option JSON
  | [], _ => none
  | (k, v) :: rest, key => if k = key then some v else JSON.lookupField rest key

/-- Python membership test, k in d, on a JSON object. -/
def hasKey (o : List (String × JSON)) (k : String) : Bool :=
  (JSON.lookupField o k).isSome

/-- Python subscript d[k], raising KeyError when the key is absent. -/
def getItem (o : List (String × JSON)) (k : String) : Except PyErr JSON :=
  match JSON.lookupField o k with
  | some v => .ok v
  | none => .error (.keyError k)

/-- Python one-argument d.get(k): none when the key is absent or when the
stored value is JSON null (both become Python None). -/
def pyGet (o : List (String × JSON)) (k : String) : Option JSON :=
  match JSON.lookupField o k with
  | some .null => none
  | some v => some v
  | none => none

/-- Python two-argument d.get(k, d0): the stored value when the key is
present (null included), the default otherwise. -/
def pyGetD (o : List (String × JSON)) (k : String) (d : JSON) : JSON :=
  match JSON.lookupField o k with
  | some v => v
  | none => d

/-- Expect a JSON object; anything else is a TypeError, the way Python
attribute or subscript access fails on a non-dict. -/
def asObj : JSON → Except PyErr (List (String × JSON))
  | .obj fs => .ok fs
  | _ => .error (.typeError "expected object")

/-- Expect a JSON array. -/
def asArr : JSON → Except PyErr (List JSON)
  | .arr xs => .ok xs
  | _ => .error (.typeError "expected array")

/-- Expect a JSON string. -/
def asStr : JSON → Except PyErr String
  | .str s => .ok s
  | _ => .error (.typeError "expected string")

/-- Expect a JSON number used as a Python int. -/
def asInt : JSON → Except PyErr Int
  | .num n => .ok n
  | .bool b => .ok (if b then 1 else 0)
  | _ => .error (.typeError "expected number")

/-- Expect a JSON boolean. -/
def asBool : JSON → Except PyErr Bool
  | .bool b => .ok b
  | _ => .error (.typeError "expected boolean")

/-- Python int(x) conversion: numbers pass through, digit strings are
converted (ValueError on a malformed string), anything else is a
TypeError. -/
def pyInt : JSON → Except PyErr Int
  | .num n => .ok n
  | .bool b => .ok (if b then 1 else 0)
  | .str s =>
    match s.toInt? with
    | some n => .ok n
    | none => .error (.valueError ("invalid literal for int: " ++ s))
  | _ => .error (.typeError "int argument must be a number or string")

/-- Python truthiness of a JSON value. -/
def pyTruthy : JSON → Bool
  | .null => false
  | .bool b => b
  | .num n => n != 0
  | .str s => s != ""
  | .arr xs => !xs.isEmpty
  | .obj fs => !fs.isEmpty

/-- Read a fixed count of decimal digits from the head of a character
list, returning their value and the remainder. -/
def takeDigits (n : Nat) (cs : List Char) : Option (Int × List Char) :=
  let pre := cs.take n
  if pre.length = n && pre.all Char.isDigit then
    some (Int.ofNat (pre.foldl (fun a c => a * 10 + (c.toNat - Char.toNat '0')) 0),
          cs.drop n)
  else
    none

/-- Core of the strptime model: walk the format string, consuming the
subject; directives capture digit groups, literals must match exactly.
The captured values are folded into a single integer, strictly monotone
for a fixed format, which stands in for the datetime value. -/
def runFormat : List Char → List Char → Int → Option Int
  | [], [], acc => some acc
  | '%' :: d :: fmt, s, acc =>
    if d = 'Y' then
      match takeDigits 4 s with
      | some (v, s1) => runFormat fmt s1 (acc * 1000000 + v)
      | none => none
    else if d = 'f' then
      let digits := s.takeWhile Char.isDigit
      if digits.length ≥ 1 && digits.length ≤ 6 then
        match takeDigits digits.length s with
        | some (v, s1) => runFormat fmt s1 (acc * 1000000 + v)
        | none => none
      else
        none
    else
      match takeDigits 2 s with
      | some (v, s1) => runFormat fmt s1 (acc * 1000000 + v)
      | none => none
  | c :: fmt, c2 :: s, acc => if c = c2 then runFormat fmt s acc else none
  | _, _, _ => none

/-- Model of datetime.datetime.strptime: a successful parse yields the
encoded value, a mismatch raises ValueError, as in Python. -/
def strptime (s fmt : String) : Except PyErr Int :=
  match runFormat fmt.toList s.toList 0 with
  | some v => .ok v
  | none => .error (.valueError ("time data " ++ s ++ " does not match format " ++ fmt))

/-- Model of datetime.datetime.fromisoformat on the strings produced by
datetime.isoformat (with or without a fractional-second part). -/
def fromisoformat (s : String) : Except PyErr Int :=
  match runFormat "%Y-%m-%dT%H:%M:%S.%f".toList s.toList 0 with
  | some v => .ok v
  | none =>
    match runFormat "%Y-%m-%dT%H:%M:%S".toList s.toList 0 with
    | some v => .ok v
    | none => .error (.valueError ("invalid isoformat string: " ++ s))

/-- Model of datetime.datetime.fromtimestamp: a monotone injection, the
identity on the integer timeline used for datetimes. -/
def fromtimestamp (n : Int) : Int := n

/-- Date format of the full (non-embedded) payload shape, api.py. -/
def dateFormatFull : String := "%Y-%m-%dT%H:%M:%S.%fZ"

/-- Date format of the embedded payload shape, api.py. -/
def dateFormatEmbedded : String := "%Y-%m-%dT%H:%M:%SZ"

/-- PlayState dataclass from config.py, with last_seen on the integer
timeline and the from_us provenance flag defaulting to false. -/
structure PlayState where
  completed : Bool
  duration_s : Int
  timecode : Int
  last_seen : Int
  from_us : Bool := false
deriving DecidableEq, Repr

/-- Credentials dataclass from config.py. -/
structure Credentials where
  hash : String
  token : String
  user_id : Int
  when : Int
deriving DecidableEq, Repr

/-- Assets dataclass from api.py. -/
structure Assets where
  icon : Option String
  poster : Option String
  fanart : String
  landscape : String
  banner : Option String
  thumb : String
deriving DecidableEq, Repr

/-- Thumbnail field of Collection: either a plain source URL or a full
Assets record, mirroring the Union type in api.py. -/
inductive ThumbOrAssets where
  | thumb (s : String)
  | assets (a : Assets)
deriving DecidableEq, Repr

/-- Collection dataclass from api.py. -/
structure Collection where
  entity_id : Int
  slug : String
  name : String
  items_count : Int
  thumbnail : ThumbOrAssets
  short_description : Option String
  description : Option String
  created_at : Option Int
  updated_at : Option Int
  is_in_list : Bool := false
deriving DecidableEq, Repr

/-- Series dataclass from api.py; trailer_url keeps the raw JSON value
the Python code stores unchecked. -/
structure Series where
  entity_id : Int
  collection_page : Option String
  title : String
  slug : String
  short_description : String
  description : String
  seasons : Int
  trailer_url : Option JSON
  assets : Assets
  created_at : Int
  updated_at : Int
  is_in_list : Bool := false

/-- Season dataclass from api.py. -/
structure Season where
  entity_id : Int
  title : String
  slug : String
  season_number : Int
  episodes_count : Int
  trailer_url : Option JSON
  thumbnail : String
  created_at : Int
  updated_at : Int
  is_in_list : Bool := false

/-- VideoSeries dataclass from api.py. -/
structure VideoSeries where
  name : String
  id : Int
deriving DecidableEq, Repr

/-- VideoSeason dataclass from api.py. -/
structure VideoSeason where
  name : String
  number : Int
  episode_number : Option Int
deriving DecidableEq, Repr

/-- VideoReleaseDate dataclass from api.py. -/
structure VideoReleaseDate where
  date : Int
  location : String
deriving DecidableEq, Repr

/-- UnreleasedVideo dataclass from api.py. -/
structure UnreleasedVideo where
  entity_id : Int
  title : String
  trailer_slug : String
  short_description : String
  description : String
  duration_s : Int
  thumbnail : String
  created_at : Int
  updated_at : Int
  is_in_list : Bool := false
deriving DecidableEq, Repr

/-- ReleasedVideo dataclass from api.py. -/
structure ReleasedVideo where
  entity_id : Int
  collection_id : Int
  title : String
  slug : String
  short_description : String
  description : String
  url : String
  duration_s : Int
  series : Option VideoSeries
  season : Option VideoSeason
  thumbnail : String
  tags : List String
  release_dates : Option (List VideoReleaseDate)
  created_at : Int
  updated_at : Int
  play_state : Option PlayState := none
  is_in_list : Bool := false
deriving DecidableEq, Repr

/-- Video sum type from api.py: Union of the released and unreleased
variants. -/
inductive Video where
  | unreleased (u : UnreleasedVideo)
  | released (r : ReleasedVideo)
deriving DecidableEq, Repr

/-- Movie dataclass from api.py: a ReleasedVideo subclass refined with
assets and a trailer URL. -/
structure Movie extends ReleasedVideo where
  assets : Assets
  trailer_url : Option JSON

/-- Media union type from api.py. -/
inductive Media where
  | collection (c : Collection)
  | series (s : Series)
  | season (s : Season)
  | video (v : Video)
  | movie (m : Movie)

/-- PaginatedMedia dataclass from api.py. -/
structure PaginatedMedia where
  items : List Media
  page : Int
  next_page : Option Int

/-- Entity id of any Media value, as the shared attribute in api.py. -/
def Media.entityId : Media → Int
  | .collection c => c.entity_id
  | .series s => s.entity_id
  | .season s => s.entity_id
  | .video (.unreleased u) => u.entity_id
  | .video (.released r) => r.entity_id
  | .movie m => m.entity_id

/-- Assignment media.is_in_list = b in api.py, modelled by rebuilding the
value. -/
def Media.setInList : Media → Bool → Media
  | .collection c, b => .collection { c with is_in_list := b }
  | .series s, b => .series { s with is_in_list := b }
  | .season s, b => .season { s with is_in_list := b }
  | .video (.unreleased u), b => .video (.unreleased { u with is_in_list := b })
  | .video (.released r), b => .video (.released { r with is_in_list := b })
  | .movie m, b => .movie { m with toReleasedVideo := { m.toReleasedVideo with is_in_list := b } }

/-- Python isinstance(x, Video): true for both Video variants and for
Movie, a ReleasedVideo subclass. -/
def Media.isVideoInstance : Media → Bool
  | .video _ => true
  | .movie _ => true
  | _ => false

/-- Python isinstance(x, ReleasedVideo): true for the released variant
and for Movie. -/
def Media.isReleasedInstance : Media → Bool
  | .video (.released _) => true
  | .movie _ => true
  | _ => false

/-- Play-state attribute of a Media value, where it exists. -/
def Media.playState : Media → Option PlayState
  | .video (.released r) => r.play_state
  | .movie m => m.play_state
  | _ => none

/-- Assignment media.play_state = ps on the variants that carry one. -/
def Media.setPlayState : Media → Option PlayState → Media
  | .video (.released r), ps => .video (.released { r with play_state := ps })
  | .movie m, ps => .movie { m with toReleasedVideo := { m.toReleasedVideo with play_state := ps } }
  | m, _ => m

/-- Reserved pseudo-category slugs, _RESERVED_CATEGORIES in api.py. -/
def reservedCategories : List String :=
  ["featured", "continue-watching", "my-list", "new-releases", "trending", "all-series"]

/-- Contents of the playstate.json store document: a JSON object keyed by
the decimal string of the video id. -/
def PlayStore := List (String × JSON)

/-- Config.get_playstate from config.py: look up the record stored under
str(video_id) and rebuild a PlayState with from_us set to true. -/
def Config.get_playstate (store : PlayStore) (video_id : Int) : Except PyErr (Option PlayState) :=
  if !hasKey store (toString video_id) then
    .ok none
  else do
    let data ← getItem store (toString video_id) >>= asObj
    let completed ← getItem data "completed" >>= asBool
    let dur ← getItem data "duration_s" >>= asInt
    let tc ← getItem data "timecode" >>= asInt
    let ls ← getItem data "last_seen" >>= asStr
    let lsv ← fromisoformat ls
    .ok (some { completed := completed, duration_s := dur, timecode := tc,
                last_seen := lsv, from_us := true })

/-- Config.get_playstates from config.py: every stored record, keyed by
int(k), each rebuilt with from_us set to true. -/
def Config.get_playstates (store : PlayStore) : Except PyErr (List (Int × PlayState)) :=
  store.mapM fun kv => do
    let key ← pyInt (.str kv.1)
    let data ← asObj kv.2
    let completed ← getItem data "completed" >>= asBool
    let dur ← getItem data "duration_s" >>= asInt
    let tc ← getItem data "timecode" >>= asInt
    let ls ← getItem data "last_seen" >>= asStr
    let lsv ← fromisoformat ls
    .ok (key, ({ completed := completed, duration_s := dur, timecode := tc,
                 last_seen := lsv, from_us := true } : PlayState))

/-- Python string equality against a JSON value, the comparison the
expression search in list performs element by element: a str compares
equal only to an equal str, never to a dict. -/
def pyStrEq (s : String) : JSON → Bool
  | .str t => s = t
  | _ => false

/-- Python dict assignment d[k] = v on a JSON object. -/
def objSet (o : List (String × JSON)) (k : String) (v : JSON) : List (String × JSON) :=
  if hasKey o k then o.map (fun p => if p.1 = k then (k, v) else p) else o ++ [(k, v)]

/-- Config._MAX_SEARCHES from config.py. -/
def maxSearches : Nat := 15

/-- Config.add_search from config.py, over the searches.json document.
The argument now_iso stands for datetime.datetime.now().isoformat().
The membership test is the literal Python expression
search not in searches["searches"], which compares the raw term string
against each stored entry (a dict). -/
def Config.add_search (now_iso : String) (file : List (String × JSON)) (search : String) :
    Except PyErr (List (String × JSON)) := do
  let cur := pyGetD file "searches" (.arr [])
  let l ← asArr cur
  if !(l.any (pyStrEq search)) then
    let l1 := l ++ [JSON.obj [("search", .str search), ("first", .str now_iso)]]
    let l2 := if l1.length > maxSearches then l1.drop 1 else l1
    .ok (objSet file "searches" (.arr l2))
  else
    .ok (objSet file "searches" (.arr l))

/-- API.__parse_play_state from api.py: a remote play-state entry; the
from_us flag is left at its false default. -/
def parse_play_state (ps : List (String × JSON)) : Except PyErr PlayState := do
  let completed ← getItem ps "completed" >>= asBool
  let dur ← getItem ps "duration" >>= asInt
  let tc ← getItem ps "timecode" >>= asInt
  let ts ← getItem ps "timestamp" >>= asInt
  .ok { completed := completed, duration_s := dur, timecode := tc,
        last_seen := fromtimestamp ts }

/-- API.__if_more_recent from api.py: keep the candidate with the larger
last_seen; on a tie, or when the parsed one is not strictly newer, keep
the current one. -/
def if_more_recent (current : Option PlayState) (parsed : PlayState) : PlayState :=
  match current with
  | none => parsed
  | some c => if parsed.last_seen > c.last_seen then parsed else c

/-- Python test x is None applied to a JSON field value. -/
def JSON.isNull : JSON → Bool
  | .null => true
  | _ => false

/-- Context threaded through the parsers: the playstate.json document
(read by API.__parse_video through Addon.CONFIG.get_playstate), the
session watchlist-id cache (API.__my_list), the remote play-state batch
query (API.__get_play_state, entries list, empty on a failed request)
and the collection-page fetch used by API.__parse_movie
(API.__get_from_collection at page 1). -/
structure ParseCtx where
  playstateFile : List (String × JSON)
  myList : Option (List Int)
  remotePlayStates : List Int → List JSON
  fetchCollection : Int → Except PyErr PaginatedMedia

/-- API.__assets_from_item from api.py. -/
def assets_from_item (item : List (String × JSON)) (embedded : Bool) :
    Except PyErr Assets := do
  if embedded then
    let adds ← getItem item "additional_images" >>= asObj
    let icon ← if hasKey adds "aspect_ratio_1_1" then do
        let v ← getItem adds "aspect_ratio_1_1" >>= asObj
        (getItem v "source" >>= asStr).map some
      else .ok none
    let poster ← if hasKey adds "aspect_ratio_2_3" then do
        let v ← getItem adds "aspect_ratio_2_3" >>= asObj
        (getItem v "source" >>= asStr).map some
      else .ok none
    let bg ← getItem adds "aspect_ratio_16_9_background" >>= asObj
    let bgSrc ← getItem bg "source" >>= asStr
    let ban ← getItem adds "aspect_ratio_16_6" >>= asObj
    let banSrc ← getItem ban "source" >>= asStr
    let thumb ← getItem item "thumbnail" >>= asObj
    let thumbSrc ← getItem thumb "source" >>= asStr
    .ok { icon := icon, poster := poster, fanart := bgSrc, landscape := bgSrc,
          banner := some banSrc, thumb := thumbSrc }
  else
    let thumbs ← getItem item "thumbnails" >>= asObj
    let t169 ← getItem thumbs "16_9" >>= asObj
    let t169src ← getItem t169 "source" >>= asStr
    let bgRaw ← getItem thumbs "16_9_background"
    let bgSrc ← match bgRaw with
      | .null => .ok t169src
      | v => do
        let o ← asObj v
        getItem o "source" >>= asStr
    let icon1 ← getItem thumbs "1_1" >>= asObj
    let iconSrc ← getItem icon1 "source" >>= asStr
    let p23 ← getItem thumbs "2_3" >>= asObj
    let posterSrc ← getItem p23 "source" >>= asStr
    let banner ← match pyGet thumbs "16_6" with
      | some v => do
        let o ← asObj v
        (getItem o "source" >>= asStr).map some
      | none => .ok none
    .ok { icon := some iconSrc, poster := some posterSrc, fanart := bgSrc,
          landscape := bgSrc, banner := banner, thumb := t169src }

/-- Branch of API.__parse_video taken when the metadata key is absent:
the body building an UnreleasedVideo. -/
def parse_video_unreleased (item : List (String × JSON)) (dateformat : String) :
    Except PyErr UnreleasedVideo := do
  let id ← getItem item "id" >>= asInt
    let title ← getItem item "title" >>= asStr
    let trailer_slug ← getItem item "url" >>= asStr
    let sdesc ← getItem item "short_description" >>= asStr
    let desc ← getItem item "description" >>= asStr
    let durO ← getItem item "duration" >>= asObj
    let dur ← getItem durO "seconds" >>= asInt
    let thO ← getItem item "thumbnail" >>= asObj
    let th ← getItem thO "source" >>= asStr
    let caS ← getItem item "created_at" >>= asStr
    let ca ← strptime caS dateformat
    let uaS ← getItem item "updated_at" >>= asStr
    let ua ← strptime uaS dateformat
  .ok {
        entity_id := id, title := title, trailer_slug := trailer_slug,
        short_description := sdesc, description := desc, duration_s := dur,
        thumbnail := th, created_at := ca, updated_at := ua }

/-- Branch of API.__parse_video taken when the metadata key is present:
the body building a ReleasedVideo, including the local play-state read
through Addon.CONFIG.get_playstate. -/
def parse_video_released (ctx : ParseCtx) (item : List (String × JSON))
    (embedded : Bool) (dateformat : String) : Except PyErr ReleasedVideo := do
    let metadata ← getItem item "metadata" >>= asObj
    let series ← if !embedded then do
        let s ← getItem metadata "series" >>= asObj
        let nm ← getItem s "name"
        if !nm.isNull then do
          let nmS ← asStr nm
          let idJ ← getItem s "id"
          let idV ← pyInt idJ
          .ok (some ({ name := nmS, id := idV } : VideoSeries))
        else .ok none
      else
        if hasKey metadata "series_name" && hasKey metadata "series_id" then do
          let nmS ← getItem metadata "series_name" >>= asStr
          let idJ ← getItem metadata "series_id"
          let idV ← pyInt idJ
          .ok (some ({ name := nmS, id := idV } : VideoSeries))
        else .ok none
    let season ← if !embedded then do
        let s ← getItem metadata "season" >>= asObj
        let nm ← getItem s "name"
        if !nm.isNull then do
          let nmS ← asStr nm
          let numJ ← getItem s "number"
          let num ← pyInt numJ
          let ep ← match pyGet s "episode_number" with
            | some v => if pyTruthy v then (pyInt v).map some else .ok none
            | none => .ok none
          .ok (some ({ name := nmS, number := num, episode_number := ep } : VideoSeason))
        else .ok none
      else
        if hasKey metadata "season_name" && hasKey metadata "season_number" then do
          let nmS ← getItem metadata "season_name" >>= asStr
          let numJ ← getItem metadata "season_number"
          let num ← pyInt numJ
          let ep ← match pyGet metadata "episode_number" with
            | some v => if pyTruthy v then (pyInt v).map some else .ok none
            | none => .ok none
          .ok (some ({ name := nmS, number := num, episode_number := ep } : VideoSeason))
        else .ok none
    let rdates ← if !embedded then getItem metadata "release_dates"
      else getItem item "release_dates"
    let release_dates ← match rdates with
      | .null => .ok none
      | v => do
        let l ← asArr v
        let parsed ← l.mapM fun rd => do
          let rdo ← asObj rd
          let dS ← getItem rdo "date" >>= asStr
          let d ← strptime dS "%Y-%m-%d"
          let loc ← getItem rdo "location" >>= asStr
          .ok ({ date := d, location := loc } : VideoReleaseDate)
        .ok (some parsed)
    let thumbnail ← if !embedded then do
        let ths ← getItem item "thumbnails" >>= asObj
        let th ← getItem ths "16_9" >>= asObj
        getItem th "source" >>= asStr
      else do
        let th ← getItem item "thumbnail" >>= asObj
        getItem th "source" >>= asStr
    let url ← if !embedded then getItem item "page_url" >>= asStr
      else do
        let links ← getItem item "_links" >>= asObj
        getItem links "video_page" >>= asStr
    let slug ← if !embedded then getItem item "slug" >>= asStr
      else getItem item "url" >>= asStr
    let tagsJ ← if !embedded then getItem metadata "tags" else getItem item "tags"
    let tags ← match tagsJ with
      | .null => .ok ([] : List String)
      | v => do
        let l ← asArr v
        l.mapM asStr
    let id ← getItem item "id" >>= asInt
    let cid ← getItem item "canonical_collection_id" >>= asInt
    let title ← getItem item "title" >>= asStr
    let sdesc ← getItem item "short_description" >>= asStr
    let desc ← getItem item "description" >>= asStr
    let durO ← getItem item "duration" >>= asObj
    let dur ← getItem durO "seconds" >>= asInt
    let caS ← getItem item "created_at" >>= asStr
    let ca ← strptime caS dateformat
    let uaS ← getItem item "updated_at" >>= asStr
    let ua ← strptime uaS dateformat
    let ps ← Config.get_playstate ctx.playstateFile id
    .ok {
          entity_id := id, collection_id := cid, title := title,
          slug := slug, short_description := sdesc, description := desc, url := url,
          duration_s := dur, series := series, season := season, thumbnail := thumbnail,
          tags := tags, release_dates := release_dates, created_at := ca,
          updated_at := ua, play_state := ps }

/-- API.__parse_video from api.py: absence of the metadata key yields the
unreleased variant, its presence the released variant; field names and
the date format depend on the payload shape (embedded or full). -/
def parse_video (ctx : ParseCtx) (item : List (String × JSON)) (embedded : Bool) :
    Except PyErr Video :=
  let dateformat := if !embedded then dateFormatFull else dateFormatEmbedded
  if !hasKey item "metadata" then
    (parse_video_unreleased item dateformat).map .unreleased
  else
    (parse_video_released ctx item embedded dateformat).map .released

/-- Digit-run value used by the regex model. -/
def digitsVal (ds : List Char) : Int :=
  Int.ofNat (ds.foldl (fun a c => a * 10 + (c.toNat - Char.toNat '0')) 0)

/-- Literal text preceding the captured digits in COLLECTION_ID_FINDER. -/
def collectionIdHead : List Char := "https://api.vhx.tv/collections/".toList

/-- Attempt to match COLLECTION_ID_FINDER at the head of the character
list: the literal head text, one or more digits, then the literal /items. -/
def matchCollectionIdAt (cs : List Char) : Option Int :=
  if cs.take collectionIdHead.length = collectionIdHead then
    let rest := cs.drop collectionIdHead.length
    let ds := rest.takeWhile Char.isDigit
    if ds.length ≥ 1 && (rest.drop ds.length).take 6 = "/items".toList then
      some (digitsVal ds)
    else
      none
  else
    none

/-- Model of re.search with COLLECTION_ID_FINDER: try the pattern at
every position of the subject, leftmost match first. -/
def findCollectionId : List Char → Option Int
  | [] => none
  | c :: cs =>
    match matchCollectionIdAt (c :: cs) with
    | some v => some v
    | none => findCollectionId cs

/-- API.__parse_collection from api.py: reserved slugs raise a
skip-worthy ValueError; a missing numeric id is recovered from the
items-href URL via the COLLECTION_ID_FINDER pattern. -/
def parse_collection (item : List (String × JSON)) (embedded extended : Bool) :
    Except PyErr Collection := do
  let dateformat := if !embedded then dateFormatFull else dateFormatEmbedded
  let slug ← getItem item "slug" >>= asStr
  if reservedCategories.contains slug then
    .error (.valueError "internal category, skipping")
  else do
  let id ← match pyGet item "id" with
    | some v => asInt v
    | none => do
      let links ← getItem item "_links" >>= asObj
      let itemsL ← getItem links "items" >>= asObj
      let href ← getItem itemsL "href" >>= asStr
      match findCollectionId href.toList with
      | some v => .ok v
      | none => .error (.valueError "could not find id in collection")
  let name ← if extended then getItem item "title" >>= asStr
    else getItem item "name" >>= asStr
  let assets ← if extended then (assets_from_item item embedded).map ThumbOrAssets.assets
    else do
      let th ← getItem item "thumbnail" >>= asObj
      (getItem th "source" >>= asStr).map ThumbOrAssets.thumb
  let icount ← getItem item "items_count" >>= asInt
  let sdesc ← if extended then (getItem item "short_description" >>= asStr).map some
    else .ok none
  let desc ← if extended then (getItem item "description" >>= asStr).map some
    else .ok none
  let ca ← if extended then do
      let s ← getItem item "created_at" >>= asStr
      (strptime s dateformat).map some
    else .ok none
  let ua ← if extended then do
      let s ← getItem item "updated_at" >>= asStr
      (strptime s dateformat).map some
    else .ok none
  .ok {
    entity_id := id, slug := slug, name := name, items_count := icount,
    thumbnail := assets, short_description := sdesc, description := desc,
    created_at := ca, updated_at := ua }

/-- API.__parse_season from api.py. -/
def parse_season (item : List (String × JSON)) (embedded : Bool) :
    Except PyErr Season := do
  let dateformat := if !embedded then dateFormatFull else dateFormatEmbedded
  let id ← getItem item "id" >>= asInt
  let title ← getItem item "title" >>= asStr
  let slug ← getItem item "slug" >>= asStr
  let snum ← getItem item "season_number" >>= asInt
  let ecount ← getItem item "episodes_count" >>= asInt
  let trailer := pyGet item "trailer_video_id"
  let ths ← getItem item "thumbnails" >>= asObj
  let th169 ← getItem ths "16_9" >>= asObj
  let th ← getItem th169 "source" >>= asStr
  let caS ← getItem item "created_at" >>= asStr
  let ca ← strptime caS dateformat
  let uaS ← getItem item "updated_at" >>= asStr
  let ua ← strptime uaS dateformat
  .ok {
    entity_id := id, title := title, slug := slug, season_number := snum,
    episodes_count := ecount, trailer_url := trailer, thumbnail := th,
    created_at := ca, updated_at := ua }

/-- API.__parse_series from api.py. -/
def parse_series (item : List (String × JSON)) (embedded : Bool) :
    Except PyErr Series := do
  let dateformat := if !embedded then dateFormatFull else dateFormatEmbedded
  let collection_page ← if embedded then do
      let links ← getItem item "_links" >>= asObj
      (getItem links "collection_page" >>= asStr).map some
    else .ok none
  let trailer := if embedded then pyGet item "trailer_url"
    else pyGet item "trailer_video_id"
  let title ← if embedded then getItem item "name" >>= asStr
    else getItem item "title" >>= asStr
  let id ← getItem item "id" >>= asInt
  let slug ← getItem item "slug" >>= asStr
  let sdesc ← getItem item "short_description" >>= asStr
  let desc ← getItem item "description" >>= asStr
  let seasons ← getItem item "seasons_count" >>= asInt
  let assets ← assets_from_item item embedded
  let caS ← getItem item "created_at" >>= asStr
  let ca ← strptime caS dateformat
  let uaS ← getItem item "updated_at" >>= asStr
  let ua ← strptime uaS dateformat
  .ok {
    entity_id := id, collection_page := collection_page, title := title,
    slug := slug, short_description := sdesc, description := desc,
    seasons := seasons, trailer_url := trailer, assets := assets,
    created_at := ca, updated_at := ua }

/-- Attribute access x.duration_s inside the movie-selection loop; only
evaluated on values passing the isinstance Video guard. -/
def Media.durationS : Media → Int
  | .video (.unreleased u) => u.duration_s
  | .video (.released r) => r.duration_s
  | .movie m => m.duration_s
  | _ => 0

/-- Underlying ReleasedVideo of a Media value when Python isinstance
against ReleasedVideo succeeds. -/
def Media.asReleased : Media → Option ReleasedVideo
  | .video (.released r) => some r
  | .movie m => some m.toReleasedVideo
  | _ => none

/-- Selection loop of API.__parse_movie, embedded with its exact control
flow: items failing the isinstance Video guard are skipped; at the first
item passing the guard the accumulator is still None, so the item is
assigned and the break statement inside the conditional body exits the
loop immediately.  The duration comparison is therefore never evaluated
with a non-None accumulator. -/
def movieSelectLoop : Option Media → List Media → Option Media
  | vid, [] => vid
  | vid, i :: rest =>
    if !i.isVideoInstance then
      movieSelectLoop vid rest
    else
      match vid with
      | none => some i
      | some v => if v.durationS > i.durationS then some i else movieSelectLoop (some v) rest

/-- API.__parse_movie from api.py: fetch page 1 of the collection named
by the raw item id, run the selection loop over its items, reject an
empty selection or an unreleased selection, then refine the selected
ReleasedVideo with assets and a trailer URL. -/
def parse_movie (ctx : ParseCtx) (item : List (String × JSON)) (embedded : Bool) :
    Except PyErr Movie := do
  let trailer := if embedded then pyGet item "trailer_url"
    else pyGet item "trailer_video_id"
  let cid ← getItem item "id" >>= asInt
  let page ← ctx.fetchCollection cid
  match movieSelectLoop none page.items with
  | none => .error (.valueError "invalid type for collection (movie)")
  | some vid =>
    match vid.asReleased with
    | none => .error (.valueError "cannot use unreleased video for movie")
    | some rv => do
      let assets ← assets_from_item item embedded
      .ok {
        entity_id := rv.entity_id, collection_id := rv.collection_id,
        title := rv.title, slug := rv.slug,
        short_description := rv.short_description, description := rv.description,
        url := rv.url, duration_s := rv.duration_s, series := rv.series,
        season := rv.season, thumbnail := rv.thumbnail, tags := rv.tags,
        release_dates := rv.release_dates, created_at := rv.created_at,
        updated_at := rv.updated_at, play_state := rv.play_state,
        is_in_list := rv.is_in_list, assets := assets, trailer_url := trailer }

/-- Conditional merge, inside the video case of API.__parse_medium, of a
play state embedded under the _embedded wrapper into a released video;
the second component is the need_play_state flag left for the batched
query. -/
def merge_embedded_play_state (fields : List (String × JSON)) (m : Media) :
    Except PyErr (Media × Bool) := do
  if hasKey fields "_embedded" then do
    let emb ← getItem fields "_embedded" >>= asObj
    if hasKey emb "play_state" && m.isReleasedInstance then do
      let psJ ← getItem emb "play_state" >>= asObj
      let ps ← parse_play_state psJ
      pure (m.setPlayState (some (if_more_recent m.playState ps)), false)
    else
      pure (m, m.isReleasedInstance)
  else
    pure (m, m.isReleasedInstance)

/-- Watchlist annotation at the end of API.__parse_medium: forced true
when parsing the watchlist itself, otherwise a membership test against
the session cache when that cache is built. -/
def annotate_in_list (ctx : ParseCtx) (is_my_list : Bool) (media : Media) : Media :=
  if is_my_list then media.setInList true
  else
    match ctx.myList with
    | some l => media.setInList (l.contains media.entityId)
    | none => media

/-- API.__parse_medium from api.py: unwrap an entity wrapper if present,
dispatch on the type discriminator (absence means collection, an
unrecognized string raises ValueError), merge an embedded play state
into a released video, then apply the watchlist annotation. -/
def parse_medium (ctx : ParseCtx) (item : JSON) (_from_tv is_my_list : Bool) :
    Except PyErr (Media × Bool) := do
  let fields0 ← asObj item
  let (fields, is_embedded) ←
    if hasKey fields0 "entity" then do
      let e ← getItem fields0 "entity" >>= asObj
      pure (e, false)
    else
      pure (fields0, true)
  let (media, need_play_state) ←
    match pyGet fields "type" with
    | some (.str "video") => do
      let v ← parse_video ctx fields is_embedded
      merge_embedded_play_state fields (Media.video v)
    | some (.str "movie") => do
      let mv ← parse_movie ctx fields is_embedded
      pure (Media.movie mv, true)
    | some (.str "season") => do
      let s ← parse_season fields is_embedded
      pure (Media.season s, false)
    | some (.str "series") => do
      let s ← parse_series fields is_embedded
      pure (Media.series s, false)
    | none => do
      let c ← parse_collection fields is_embedded false
      pure (Media.collection c, false)
    | some _ => .error (.valueError "unknown type")
  .ok (annotate_in_list ctx is_my_list media, need_play_state)

/-- Placeholder Media value used only to type out-of-range list reads;
indexes produced by the batch loop are always in range. -/
def defaultMedia : Media := Media.collection {
  entity_id := 0, slug := "", name := "", items_count := 0,
  thumbnail := .thumb "", short_description := none, description := none,
  created_at := none, updated_at := none }

/-- Python dict assignment d[k] = v over an insertion-ordered
association list: an existing key keeps its position, a new key goes to
the back.  This is the dict comprehension model used by the batch
parser. -/
def dictInsert (l : List (Int × Nat)) (k : Int) (v : Nat) : List (Int × Nat) :=
  if l.any (fun p => p.1 == k) then l.map (fun p => if p.1 == k then (k, v) else p)
  else l ++ [(k, v)]

/-- Python dict .get over the association-list dict model. -/
def dictGet (l : List (Int × Nat)) (k : Int) : Option Nat :=
  (l.find? (fun p => p.1 == k)).map (fun p => p.2)

/-- Per-item loop of API.__parse_media: a ValueError from one item is
caught, logged and the item skipped; any other exception propagates and
aborts the batch.  The second component records the indexes, into the
accumulated output, of the items flagged as needing a play state. -/
def parseMediaLoop (ctx : ParseCtx) (from_tv is_my_list : Bool) :
    List JSON → List Media → List Nat → Except PyErr (List Media × List Nat)
  | [], out, vids => .ok (out, vids)
  | item :: rest, out, vids =>
    match parse_medium ctx item from_tv is_my_list with
    | .ok (media, need) =>
      parseMediaLoop ctx from_tv is_my_list rest (out ++ [media])
        (if need then vids ++ [out.length] else vids)
    | .error (.valueError _) => parseMediaLoop ctx from_tv is_my_list rest out vids
    | .error e => .error e

/-- Body of the play-state application loop at the end of
API.__parse_media: a remote entry whose video_id is not an int key of
the lookup dict is skipped with a warning; otherwise the entry is parsed
and merged into the media at the looked-up index. -/
def applyRemotePlayState (lookup : List (Int × Nat)) (out : List Media) (ps : JSON) :
    Except PyErr (List Media) := do
  let pso ← asObj ps
  let vidJ ← getItem pso "video_id"
  let idx :=
    match vidJ with
    | .num n => dictGet lookup n
    | _ => none
  match idx with
  | none => .ok out
  | some i => do
    let parsed ← parse_play_state pso
    let cur := out.getD i defaultMedia
    .ok (out.set i (cur.setPlayState (some (if_more_recent cur.playState parsed))))

/-- API.__parse_media from api.py: the per-item best-effort loop,
followed (unless fast is set or no item needs one) by a batched remote
play-state query merged back into the parsed output. -/
def parse_media (ctx : ParseCtx) (items : List JSON) (from_tv fast is_my_list : Bool) :
    Except PyErr (List Media) := do
  let (out, vids) ← parseMediaLoop ctx from_tv is_my_list items [] []
  if vids.length > 0 && !fast then do
    let lookup := vids.foldl (fun l i => dictInsert l ((out.getD i defaultMedia).entityId) i) []
    let pstates := ctx.remotePlayStates (lookup.map (fun p => p.1))
    let out2 ← pstates.foldlM (applyRemotePlayState lookup) out
    .ok out2
  else
    .ok out

/-- API.__parse_com_page from api.py, the counter pagination dialect: a
missing response gives an empty page with no next page; otherwise the
next page is set exactly when count is at least page times per_page. -/
def parse_com_page (ctx : ParseCtx) (res : Option JSON) (current_page : Int)
    (items_key : String) : Except PyErr PaginatedMedia := do
  match res with
  | none => .ok { items := [], page := current_page, next_page := none }
  | some resJ => do
    let ro ← asObj resJ
    let pagination ← getItem ro "pagination" >>= asObj
    let count ← getItem pagination "count" >>= asInt
    let pageN ← getItem pagination "page" >>= asInt
    let per ← getItem pagination "per_page" >>= asInt
    let next_page := if count ≥ pageN * per then some (pageN + 1) else none
    let itemsJ ← getItem ro items_key >>= asArr
    let parsed ← parse_media ctx itemsJ false false false
    .ok { items := parsed, page := pageN, next_page := next_page }

/-- API.__parse_tv_page from api.py, the hypermedia pagination dialect:
the next page is set exactly when the chain _links.next.href yields a
non-None value. -/
def parse_tv_page (ctx : ParseCtx) (res : Option JSON) (current_page : Int)
    (is_my_list : Bool) : Except PyErr PaginatedMedia := do
  match res with
  | none => .ok { items := [], page := current_page, next_page := none }
  | some resJ => do
    let ro ← asObj resJ
    let links ← asObj (pyGetD ro "_links" (.obj []))
    let nxt ← asObj (pyGetD links "next" (.obj []))
    let next_page := if (pyGet nxt "href").isSome then some (current_page + 1) else none
    let emb ← getItem ro "_embedded" >>= asObj
    let itemsJ ← getItem emb "items" >>= asArr
    let parsed ← parse_media ctx itemsJ true false is_my_list
    .ok { items := parsed, page := current_page, next_page := next_page }

/-- Filter predicate of API.get_continue_watching: keep an item unless
it is a ReleasedVideo whose play state is present, completed and sourced
from the local store. -/
def continueWatchingKeep (i : Media) : Bool :=
  !i.isReleasedInstance ||
    (match i.playState with
     | none => true
     | some ps => !ps.completed || !ps.from_us)

/-- Opening brace character, written by code point to keep it out of
string literals. -/
def lbrace : Char := Char.ofNat 123

/-- Closing brace character. -/
def rbrace : Char := Char.ofNat 125

/-- Model of str.format on the counter-dialect template_url: substitute
the page and per_page place-holders, copying everything else. -/
def substFormat (page per : Int) : List Char → List Char
  | [] => []
  | c :: rest =>
    if c = lbrace then
      if rest.take 5 = ("page".toList ++ [rbrace]) then
        (toString page).toList ++ substFormat page per (rest.drop 5)
      else if rest.take 9 = ("per_page".toList ++ [rbrace]) then
        (toString per).toList ++ substFormat page per (rest.drop 9)
      else
        c :: substFormat page per rest
    else
      c :: substFormat page per rest
termination_by l => l.length
decreasing_by
  all_goals simp [List.length_drop]
  all_goals omega

/-- Backend seen by the pagination collector: for each requested URL,
none models a non-success HTTP status, some the decoded JSON body. -/
structure Server where
  respond : String → Option JSON

/-- One traversal of the while-loop body of API.__api_request_pages.
The inl outcome is the break statement carrying the final accumulated
items; the inr outcome carries the computed next URL and the grown
accumulator; uncaught exceptions propagate. -/
def collectStep (debug : Bool) (server : Server) (use_tv : Bool) (url : String)
    (acc : List JSON) : Except PyErr (List JSON ⊕ (String × List JSON)) := do
  match server.respond url with
  | none =>
    if debug then .error (.valueError "api request pages failed")
    else .ok (.inl acc)
  | some data => do
    let dataO ← asObj data
    let dwi ← if use_tv then asObj (pyGetD dataO "_embedded" (.obj [])) else .ok dataO
    let newItems ← asArr (pyGetD dwi "items" (.arr []))
    let acc2 := acc ++ newItems
    if use_tv then do
      let links ← asObj (pyGetD dataO "_links" (.obj []))
      let nxt ← asObj (pyGetD links "next" (.obj []))
      match pyGet nxt "href" with
      | none => .ok (.inl acc2)
      | some h => do
        let hs ← asStr h
        .ok (.inr (hs, acc2))
    else do
      let pagination ← asObj (pyGetD dataO "pagination" (.obj []))
      let count ← getItem pagination "count" >>= asInt
      let pageN ← getItem pagination "page" >>= asInt
      let per ← getItem pagination "per_page" >>= asInt
      if count ≤ pageN * per then .ok (.inl acc2)
      else do
        let tmpl ← getItem pagination "template_url" >>= asStr
        .ok (.inr (String.mk (substFormat (pageN + 1) per tmpl.toList), acc2))

/-- Fuel-indexed run of the collector loop of API.__api_request_pages:
ok none means the fuel ran out with the loop still going, ok (some l)
that the loop broke with final items l. -/
def collectPages (debug : Bool) (server : Server) (use_tv : Bool) :
    Nat → String → List JSON → Except PyErr (Option (List JSON))
  | 0, _, _ => .ok none
  | fuel + 1, url, acc => do
    match ← collectStep debug server use_tv url acc with
    | .inl items => .ok (some items)
    | .inr (nextUrl, acc2) => collectPages debug server use_tv fuel nextUrl acc2

/-- Divergence of the collector loop from a given URL: no fuel bound
ever suffices, from any accumulator. -/
def collectorDiverges (debug : Bool) (server : Server) (use_tv : Bool) (url : String) : Prop :=
  ∀ fuel acc, collectPages debug server use_tv fuel url acc = .ok none

/-- Environment of one API construction: the credential pair, the digest
primitive (md5 in the code), the clock, and the website responses; each
scraped endpoint is indexed by its own call counter so that successive
requests may answer differently.  The home endpoint yields the already
extracted TOKEN_FINDER and USER_FINDER captures. -/
structure SessionEnv where
  username : String
  password : String
  digest : String → String
  now : Int
  sessionCookies : List (String × String)
  plans : Nat → Option JSON
  home : Nat → Option String × Option Int
  loginFormToken : Nat → Option String
  metaToken : Nat → Option String
  loginOk : Nat → Bool

/-- Persistent-store slice owned by the session manager: the cached
Credentials record and the cookie-jar document. -/
structure SessionStore where
  credentials : Option Credentials
  cookieJar : List (String × String)
deriving DecidableEq, Repr

/-- In-memory state of the API object relevant to the session claims. -/
structure SessionState where
  token : Option String
  user_id : Option Int
  logged_in : Bool
  has_subscription : Bool
  sessionCookieState : List (String × String)
deriving DecidableEq, Repr

/-- Full state threaded through the session functions: in-memory state,
persistent store, and the per-endpoint call counters. -/
structure RunSt where
  sess : SessionState
  store : SessionStore
  plansCalls : Nat
  homeCalls : Nat
  loginFormCalls : Nat
  metaCalls : Nat
  loginCalls : Nat
  logoutCalls : Nat
deriving DecidableEq, Repr

/-- Effect of API.__website_request on stored state: the session cookie
state is updated by the server and the cookie-jar document is rewritten
from it, regardless of outcome. -/
def websiteTouch (env : SessionEnv) (rs : RunSt) : RunSt :=
  { rs with
    sess := { rs.sess with sessionCookieState := env.sessionCookies },
    store := { rs.store with cookieJar := env.sessionCookies } }

/-- API.__calculate_hash from api.py: digest of username concatenated
with password. -/
def calculate_hash (env : SessionEnv) : String :=
  env.digest (env.username ++ env.password)

/-- API.__clear_auth_data from api.py: empty the cookie-jar document,
clear the session cookies, drop the bearer token.  The cached
Credentials record is not touched. -/
def clear_auth_data (rs : RunSt) : RunSt :=
  { rs with
    store := { rs.store with cookieJar := [] },
    sess := { rs.sess with sessionCookieState := [], token := none } }

/-- API.__update_status from api.py: probe the subscription-status
endpoint; a non-null plan payload means logged in, an unexpired plan a
subscription; a null payload clears token and cookie state. -/
def update_status (env : SessionEnv) (rs : RunSt) : Except PyErr (Bool × RunSt) := do
  let n := rs.plansCalls
  let rs := websiteTouch env { rs with plansCalls := n + 1 }
  let sub := env.plans n
  let hasSub ← match sub with
    | none => .ok false
    | some j => do
      let jo ← asObj j
      let cpo ← asObj (pyGetD jo "current_plan" (.obj []))
      let he := pyGetD cpo "has_expired" (.bool true)
      .ok (!(pyTruthy he))
  let rs := { rs with sess := {
        rs.sess with logged_in := sub.isSome, has_subscription := hasSub } }
  let rs := if sub.isNone then clear_auth_data rs else rs
  .ok (sub.isSome, rs)

/-- API.__update_token from api.py: scrape the home page for the config
token and the current-user id; both are stored (None when absent) and
the call reports whether both were found. -/
def update_token (env : SessionEnv) (rs : RunSt) : Bool × RunSt :=
  let n := rs.homeCalls
  let rs := websiteTouch env { rs with homeCalls := n + 1 }
  let (tok, uid) := env.home n
  let rs := { rs with sess := { rs.sess with token := tok, user_id := uid } }
  (tok.isSome && uid.isSome, rs)

/-- API.__update_from_website from api.py. -/
def update_from_website (env : SessionEnv) (rs : RunSt) : Except PyErr (Bool × RunSt) := do
  let (_, rs) ← update_status env rs
  if rs.sess.logged_in then .ok (update_token env rs)
  else .ok (false, rs)

/-- API.__get_authenticity_token from api.py: scrape a CSRF token from
the home-page meta tag or from the login form; a missing or empty token
is a hard ValueError. -/
def get_authenticity_token (env : SessionEnv) (meta : Bool) (rs : RunSt) :
    Except PyErr (String × RunSt) :=
  if meta then
    let n := rs.metaCalls
    let rs := websiteTouch env { rs with metaCalls := n + 1 }
    match env.metaToken n with
    | none => .error (.valueError "could not get authenticity token")
    | some t =>
      if t = "" then .error (.valueError "could not get authenticity token")
      else .ok (t, rs)
  else
    let n := rs.loginFormCalls
    let rs := websiteTouch env { rs with loginFormCalls := n + 1 }
    match env.loginFormToken n with
    | none => .error (.valueError "could not get authenticity token")
    | some t =>
      if t = "" then .error (.valueError "could not get authenticity token")
      else .ok (t, rs)

/-- API.__do_login from api.py: empty credentials short-circuit to
failure with no request; otherwise scrape the login-form CSRF token,
POST the credentials, and on success redo the website probe. -/
def do_login (env : SessionEnv) (rs : RunSt) : Except PyErr (Bool × RunSt) := do
  if env.username = "" || env.password = "" then .ok (false, rs)
  else do
    let (_tok, rs) ← get_authenticity_token env false rs
    let n := rs.loginCalls
    let rs := websiteTouch env { rs with loginCalls := n + 1 }
    if !env.loginOk n then .ok (false, rs)
    else update_from_website env rs

/-- Shared tail of API.__ensure_logged_in: the website probe, then the
full login. -/
def ensure_rest (env : SessionEnv) (rs : RunSt) : Except PyErr (Bool × RunSt) := do
  let (ok1, rs) ← update_from_website env rs
  if ok1 then .ok (true, rs) else do_login env rs

/-- API.__ensure_logged_in from api.py: reuse cached credentials only on
a hash match within the five-minute window; on mismatch or expiry the
cached record is deleted unconditionally before falling through to the
probe and login path. -/
def ensure_logged_in (env : SessionEnv) (creds : Option Credentials) (rs : RunSt) :
    Except PyErr (Bool × RunSt) :=
  match creds with
  | some c =>
    if calculate_hash env = c.hash && env.now - c.when < 5 * 60 then
      .ok (true, { rs with sess := {
            rs.sess with
            token := some c.token, user_id := some c.user_id,
            logged_in := true, has_subscription := true } })
    else
      ensure_rest env { rs with store := { rs.store with credentials := none } }
  | none => ensure_rest env rs

/-- API.__init__ from api.py, restricted to the session logic: load the
cookie jar and cached credentials, run __ensure_logged_in, and persist a
fresh Credentials record only when no cached record existed at the start
and the session ended logged in with a subscription.  The asserts on
token and user id are modelled as AssertionError. -/
def apiInit (env : SessionEnv) (store0 : SessionStore) : Except PyErr RunSt := do
  let rs0 : RunSt := {
    sess := { token := none, user_id := none, logged_in := false,
              has_subscription := false, sessionCookieState := store0.cookieJar },
    store := store0, plansCalls := 0, homeCalls := 0, loginFormCalls := 0,
    metaCalls := 0, loginCalls := 0, logoutCalls := 0 }
  let creds := store0.credentials
  let (_, rs) ← ensure_logged_in env creds rs0
  if creds.isNone && rs.sess.logged_in && rs.sess.has_subscription then
    match rs.sess.token, rs.sess.user_id with
    | some t, some u =>
      .ok { rs with store := {
            rs.store with credentials := some {
              hash := calculate_hash env, token := t, user_id := u, when := env.now } } }
    | _, _ => .error .assertionError
  else
    .ok rs

/-- API.logout from api.py: POST to the logout endpoint with a freshly
scraped meta CSRF token, reset the login flags, then clear auth data. -/
def logout (env : SessionEnv) (rs : RunSt) : Except PyErr RunSt := do
  let (_tok, rs) ← get_authenticity_token env true rs
  let rs := websiteTouch env { rs with logoutCalls := rs.logoutCalls + 1 }
  let rs := { rs with sess := {
        rs.sess with logged_in := false, has_subscription := false } }
  .ok (clear_auth_data rs)

/-- Test for the unreleased video variant of Media. -/
def Media.isUnreleasedVideo : Media → Bool
  | .video (.unreleased _) => true
  | _ => false

/-- Test for the released video variant of Media (the Movie subclass
excluded). -/
def Media.isReleasedVideoStrict : Media → Bool
  | .video (.released _) => true
  | _ => false

/-- Test for the collection variant of Media. -/
def Media.isCollection : Media → Bool
  | .collection _ => true
  | _ => false

/-- Type-discriminator strings handled by the match in
API.__parse_medium; every other value reaches the wildcard raise. -/
def recognizedType : JSON → Bool
  | .str "video" => true
  | .str "movie" => true
  | .str "season" => true
  | .str "series" => true
  | _ => false

/-- Parser context with no local play states, no watchlist cache, an
empty remote play-state response and no collection backend. -/
def emptyCtx : ParseCtx := {
  playstateFile := [], myList := none,
  remotePlayStates := fun _ => [],
  fetchCollection := fun _ => .error (.valueError "no network") }

/-- Released-video fixture with a given id and duration. -/
def sampleRV (id dur : Int) : ReleasedVideo := {
  entity_id := id, collection_id := 1, title := "t", slug := "s",
  short_description := "sd", description := "d", url := "u", duration_s := dur,
  series := none, season := none, thumbnail := "th", tags := [],
  release_dates := none, created_at := 0, updated_at := 0 }

/-- Collection page holding released videos of durations 900, 300 and
1200 seconds, in that encounter order. -/
def pageNineThreeTwelve : PaginatedMedia := {
  items := [.video (.released (sampleRV 10 900)),
            .video (.released (sampleRV 11 300)),
            .video (.released (sampleRV 12 1200))],
  page := 1, next_page := none }

/-- Parser context whose collection backend serves pageNineThreeTwelve
for every collection id. -/
def ctxMovie : ParseCtx := { emptyCtx with fetchCollection := fun _ => .ok pageNineThreeTwelve }

/-- Parser context whose collection backend serves an empty page. -/
def ctxMovieEmpty : ParseCtx := {
  emptyCtx with fetchCollection := fun _ => .ok { items := [], page := 1, next_page := none } }

/-- Raw movie entry (embedded shape) with the image fields the Movie
constructor reads. -/
def movieRawItem : List (String × JSON) := [
  ("id", .num 77),
  ("additional_images", .obj [
    ("aspect_ratio_16_9_background", .obj [("source", .str "bg")]),
    ("aspect_ratio_16_6", .obj [("source", .str "ban")])]),
  ("thumbnail", .obj [("source", .str "th")])]

/-- Counter-dialect page response sitting exactly on the boundary:
count equal to page times per_page, so the backend has no further
page. -/
def comPageBoundary : JSON := .obj [
  ("pagination", .obj [("count", .num 25), ("page", .num 1), ("per_page", .num 25)]),
  ("items", .arr [])]

/-- Play-state fixtures for the merge claim. -/
def psEarly : PlayState := { completed := false, duration_s := 100, timecode := 0, last_seen := 10 }

/-- Later play-state fixture, strictly newer than psEarly. -/
def psLate : PlayState := { completed := true, duration_s := 100, timecode := 0, last_seen := 20 }

/-- Field list of a raw unreleased-video payload, embedded shape: type
video, no metadata key. -/
def unrelFields : List (String × JSON) := [
  ("type", .str "video"),
  ("id", .num 5), ("title", .str "T"), ("url", .str "slug-u"),
  ("short_description", .str "sd"), ("description", .str "d"),
  ("duration", .obj [("seconds", .num 60)]),
  ("thumbnail", .obj [("source", .str "th")]),
  ("created_at", .str "2020-01-02T03:04:05Z"),
  ("updated_at", .str "2020-01-02T03:04:06Z")]

/-- Raw unreleased-video payload. -/
def unrelItem : JSON := .obj unrelFields

/-- Field list of a raw released-video payload, embedded shape: type
video with a metadata key. -/
def relFields : List (String × JSON) := [
  ("type", .str "video"),
  ("id", .num 6), ("canonical_collection_id", .num 9),
  ("title", .str "T"), ("url", .str "slug-r"),
  ("short_description", .str "sd"), ("description", .str "d"),
  ("duration", .obj [("seconds", .num 61)]),
  ("thumbnail", .obj [("source", .str "th")]),
  ("metadata", .obj [("series_name", .str "S"), ("series_id", .num 3)]),
  ("release_dates", .null),
  ("_links", .obj [("video_page", .str "vp")]),
  ("tags", .arr [.str "tag1"]),
  ("created_at", .str "2020-01-02T03:04:05Z"),
  ("updated_at", .str "2020-01-02T03:04:06Z")]

/-- Raw released-video payload. -/
def relItem : JSON := .obj relFields

/-- Field list of a raw collection payload, embedded shape, with an
unreserved slug. -/
def collFields : List (String × JSON) := [
  ("slug", .str "some-show"), ("id", .num 8), ("name", .str "N"),
  ("items_count", .num 4),
  ("thumbnail", .obj [("source", .str "th")])]

/-- Raw collection payload. -/
def collItem : JSON := .obj collFields

/-- Field list of a raw payload with no type key and a reserved slug. -/
def reservedFields : List (String × JSON) := [("slug", .str "my-list"), ("id", .num 9)]

/-- Raw payload with no type key and a reserved slug. -/
def reservedItem : JSON := .obj reservedFields

/-- Field list of a raw payload with an unrecognized type string. -/
def unknownTypeFields : List (String × JSON) := [("type", .str "live_event"), ("id", .num 12)]

/-- Raw payload with an unrecognized type string. -/
def unknownTypeItem : JSON := .obj unknownTypeFields

/-- Raw video payload missing every field beyond the discriminator; its
parse raises KeyError on the id lookup. -/
def badVideoItem : JSON := .obj [("type", .str "video")]

/-- Parsed results of the dispatch fixtures, extracted so closed
theorems can name them. -/
def unrelParsed : Media × Bool :=
  match parse_medium emptyCtx unrelItem false false with
  | .ok r => r
  | .error _ => (defaultMedia, false)

/-- Parsed released-video fixture result. -/
def relParsed : Media × Bool :=
  match parse_medium emptyCtx relItem false false with
  | .ok r => r
  | .error _ => (defaultMedia, false)

/-- Parsed collection fixture result. -/
def collParsed : Media × Bool :=
  match parse_medium emptyCtx collItem false false with
  | .ok r => r
  | .error _ => (defaultMedia, false)

/-- Hypermedia fixture that always reports a further page at URL u. -/
def staticTvServer : Server := ⟨fun _ => some (.obj [
  ("_embedded", .obj [("items", .arr [])]),
  ("_links", .obj [("next", .obj [("href", .str "u")])])])⟩

/-- Counter fixture that always reports count 100 over page 1 of 25 and
a constant template URL t. -/
def staticComServer : Server := ⟨fun _ => some (.obj [
  ("items", .arr []),
  ("pagination", .obj [("count", .num 100), ("page", .num 1),
    ("per_page", .num 25), ("template_url", .str "t")])])⟩

/-- Hypermedia fixture with no next link. -/
def finalTvServer : Server := ⟨fun _ => some (.obj [
  ("_embedded", .obj [("items", .arr [.num 1])]),
  ("_links", .obj [("next", .obj [])])])⟩

/-- Session environment for the persistence runs: digest is the
identity-style concatenation stand-in, the probe answers with an
unexpired plan, the home page yields a token and user id. -/
def envProbe : SessionEnv := {
  username := "u", password := "p",
  digest := fun s => s, now := 1000,
  sessionCookies := [("session", "abc")],
  plans := fun _ => some (.obj [("current_plan", .obj [("has_expired", .bool false)])]),
  home := fun _ => (some "TOK", some 7),
  loginFormToken := fun _ => some "F",
  metaToken := fun _ => some "M",
  loginOk := fun _ => true }

/-- Store carrying a stale cached record: the hash matches the digest of
the credentials, but the record is 600 seconds old against the
five-minute window. -/
def staleStore : SessionStore := {
  credentials := some { hash := "up", token := "T0", user_id := 7, when := 400 },
  cookieJar := [] }

/-- Store with no cached record. -/
def freshStore : SessionStore := { credentials := none, cookieJar := [] }

/-- Result of a construction from the fresh store, extracted for closed
statements. -/
def freshRun : RunSt :=
  match apiInit envProbe freshStore with
  | .ok rs => rs
  | .error _ => {
      sess := { token := none, user_id := none, logged_in := false,
                has_subscription := false, sessionCookieState := [] },
      store := freshStore, plansCalls := 0, homeCalls := 0, loginFormCalls := 0,
      metaCalls := 0, loginCalls := 0, logoutCalls := 0 }

/-- Cached record present while logging out. -/
def credLogout : Credentials := { hash := "h", token := "T", user_id := 7, when := 900 }

/-- State of a logged-in session about to log out, with a cached
Credentials record in the store. -/
def logoutStart : RunSt := {
  sess := { token := some "T", user_id := some 7, logged_in := true,
            has_subscription := true, sessionCookieState := [("session", "abc")] },
  store := { credentials := some credLogout, cookieJar := [("session", "abc")] },
  plansCalls := 0, homeCalls := 0, loginFormCalls := 0, metaCalls := 0,
  loginCalls := 0, logoutCalls := 0 }

/-- First add_search result: the term foo added to an empty store at
time t1. -/
def searchFileOne : List (String × JSON) :=
  match Config.add_search "t1" [] "foo" with
  | .ok f => f
  | .error _ => []

/-- Second add_search result: the same term foo added again at time
t2. -/
def searchFileTwo : List (String × JSON) :=
  match Config.add_search "t2" searchFileOne "foo" with
  | .ok f => f
  | .error _ => []

/-- Local play-state store document with one completed record under
video id 42. -/
def playFile42 : PlayStore := [
  ("42", .obj [("completed", .bool true), ("duration_s", .num 10),
               ("timecode", .num 0), ("last_seen", .str "2024-01-02T03:04:05")])]

/-- Extracted local read of video 42, for closed statements. -/
def ps42 : PlayState :=
  match Config.get_playstate playFile42 42 with
  | .ok (some ps) => ps
  | _ => psEarly

/-- Raw remote play-state entry. -/
def remoteEntry : List (String × JSON) := [
  ("completed", .bool true), ("duration", .num 10),
  ("timecode", .num 0), ("timestamp", .num 5)]

/-- Extracted remote parse result, for closed statements. -/
def psRemote : PlayState :=
  match parse_play_state remoteEntry with
  | .ok ps => ps
  | _ => psLate

/-- Released video carrying a completed, locally sourced play state, the
shape the continue-watching filter drops. -/
def droppedMedia : Media :=
  .video (.released { sampleRV 50 100 with play_state := some {
    completed := true, duration_s := 100, timecode := 0, last_seen := 10, from_us := true } })

/-- Parsed page of the boundary fixture, extracted for closed
statements. -/
def comBoundaryParsed : PaginatedMedia :=
  match parse_com_page emptyCtx (some comPageBoundary) 1 "items" with
  | .ok p => p
  | .error _ => { items := [], page := 0, next_page := none }

/-- Hypermedia page response whose next link carries no href. -/
def tvNoNext : JSON := .obj [
  ("_links", .obj [("next", .obj [])]),
  ("_embedded", .obj [("items", .arr [])])]

/-- Parsed page of the hypermedia no-next fixture. -/
def tvNoNextParsed : PaginatedMedia :=
  match parse_tv_page emptyCtx (some tvNoNext) 1 false with
  | .ok p => p
  | .error _ => { items := [], page := 0, next_page := some 0 }

/-- Bind in the Except monad succeeds exactly through a successful first
stage; the workhorse lemma for walking the embedded do-chains. -/
theorem exceptBindOk {α β : Type} {e : Except PyErr α} {f : α → Except PyErr β} {b : β} :
    (e >>= f) = .ok b ↔ ∃ a, e = .ok a ∧ f a = .ok b := by
  cases e <;> simp [Bind.bind, Except.bind]

/-- C1: movie parsing is claimed to select the ReleasedVideo with the
smallest duration among the backing collection items, with [900, 300,
1200] resolving to the 300-second item, and to fail hard on zero
candidates.  On the embedded code the selection loop breaks at the
first video it sees, so the 900-second item (entity 10) is returned
instead of the 300-second one; the zero-candidate hard error does
hold. -/
theorem parse_movie_picks_first_not_min :
    (parse_movie ctxMovie movieRawItem true).map (fun m => (m.entity_id, m.duration_s)) =
      .ok (10, 900) ∧
    parse_movie ctxMovieEmpty movieRawItem true =
      .error (.valueError "invalid type for collection (movie)") :=
  ⟨rfl, rfl⟩

/-- C2: the play-state merge is idempotent and order-independent on
lastSeen, the strictly newer instance wins, and a tie keeps the current
instance. -/
theorem if_more_recent_merge_props :
    (∀ a b : PlayState,
      (if_more_recent (some a) b).last_seen = (if_more_recent (some b) a).last_seen) ∧
    (∀ a : PlayState, if_more_recent (some a) a = a) ∧
    (∀ a b : PlayState, a.last_seen < b.last_seen → if_more_recent (some a) b = b) ∧
    (∀ a b : PlayState, b.last_seen < a.last_seen → if_more_recent (some a) b = a) ∧
    (∀ a b : PlayState, b.last_seen = a.last_seen → if_more_recent (some a) b = a) := by
  refine ⟨?_, ?_, ?_, ?_, ?_⟩
  · intro a b
    simp only [if_more_recent]
    split <;> split <;> omega
  · intro a
    simp only [if_more_recent]
    split <;> rfl
  · intro a b h
    simp only [if_more_recent]
    exact if_pos h
  · intro a b h
    simp only [if_more_recent]
    exact if_neg (by omega)
  · intro a b h
    simp only [if_more_recent]
    exact if_neg (by omega)

/-- C2 witness: merging psEarly with itself returns it unchanged, and
merging in the strictly newer psLate returns psLate. -/
theorem if_more_recent_merge_props_witness :
    if_more_recent (some psEarly) psEarly = psEarly ∧
    if_more_recent (some psEarly) psLate = psLate :=
  ⟨if_more_recent_merge_props.2.1 psEarly,
   if_more_recent_merge_props.2.2.1 psEarly psLate (by decide)⟩

/-- C3 counterexample: at the exact boundary count = page x per_page the
backend reports no further page (count > page x per_page fails), yet
parse_com_page returns next_page = 2, not None. -/
theorem parse_com_page_boundary_extra_page :
    (parse_com_page emptyCtx (some comPageBoundary) 1 "items").map (fun p => p.next_page) =
      .ok (some 2) ∧
    ¬ ((25 : Int) > 1 * 25) :=
  ⟨rfl, by decide⟩

/-- C3 amended: next_page characterization of the two page parsers as
coded.  Counter dialect: next_page is set exactly when count is at
least page times per_page (greater or equal, not strictly greater, so
an exact final boundary yields a spurious next page).  Hypermedia
dialect: next_page is set exactly when the _links.next.href value is
present and non-null. -/
theorem page_nextPage_characterization :
    (∀ (ctx : ParseCtx) (curPage : Int) (key : String) (count pageN per : Int)
      (itemsArr : List JSON) (p : PaginatedMedia),
      key ≠ "pagination" →
      parse_com_page ctx
        (some (.obj [("pagination", .obj [("count", .num count), ("page", .num pageN),
                      ("per_page", .num per)]), (key, .arr itemsArr)])) curPage key = .ok p →
      p.next_page = if count ≥ pageN * per then some (pageN + 1) else none) ∧
    (∀ (ctx : ParseCtx) (curPage : Int) (iml : Bool) (nextFields : List (String × JSON))
      (itemsArr : List JSON) (p : PaginatedMedia),
      parse_tv_page ctx
        (some (.obj [("_links", .obj [("next", .obj nextFields)]),
                     ("_embedded", .obj [("items", .arr itemsArr)])])) curPage iml = .ok p →
      p.next_page = if (pyGet nextFields "href").isSome then some (curPage + 1) else none) := by
  constructor
  · intro ctx curPage key count pageN per itemsArr p hkey hp
    have hkey2 : ("pagination" : String) ≠ key := Ne.symm hkey
    simp [parse_com_page, Bind.bind, Except.bind, asObj, getItem, JSON.lookupField,
      asInt, asArr, if_neg hkey2] at hp
    cases hpm : parse_media ctx itemsArr false false false with
    | error e =>
      rw [hpm] at hp
      exact absurd hp (by simp)
    | ok v =>
      rw [hpm] at hp
      injection hp with h
      subst h
      simp [ge_iff_le]
  · intro ctx curPage iml nextFields itemsArr p hp
    simp [parse_tv_page, Bind.bind, Except.bind, asObj, getItem, JSON.lookupField,
      asArr, pyGetD] at hp
    cases hpm : parse_media ctx itemsArr true false iml with
    | error e =>
      rw [hpm] at hp
      exact absurd hp (by simp)
    | ok v =>
      rw [hpm] at hp
      injection hp with h
      subst h
      simp

/-- C3 witness: the characterization applied to the boundary counter
fixture and to the hypermedia fixture without an href. -/
theorem page_nextPage_characterization_witness :
    comBoundaryParsed.next_page = some 2 ∧ tvNoNextParsed.next_page = none := by
  constructor
  · have h := page_nextPage_characterization.1 emptyCtx 1 "items" 25 1 25 []
      comBoundaryParsed (by decide) rfl
    simpa using h
  · have h := page_nextPage_characterization.2 emptyCtx 1 false [] [] tvNoNextParsed rfl
    simpa using h

/-- Map in the Except monad succeeds exactly on a successful operand. -/
theorem exceptMapOk {α β : Type} {f : α → β} {e : Except PyErr α} {b : β} :
    Except.map f e = .ok b ↔ ∃ a, e = .ok a ∧ f a = b := by
  cases e <;> simp [Except.map]

/-- Every successful parse of a video payload without a metadata key is
the unreleased variant. -/
theorem parse_video_no_metadata :
    ∀ (ctx : ParseCtx) (item : List (String × JSON)) (e : Bool) (v : Video),
      hasKey item "metadata" = false → parse_video ctx item e = .ok v →
      ∃ u, v = .unreleased u := by
  intro ctx item e v hmeta hv
  simp [parse_video, hmeta, exceptMapOk] at hv
  obtain ⟨u, _, h⟩ := hv
  exact ⟨u, h.symm⟩

/-- Every successful parse of a video payload with a metadata key is the
released variant. -/
theorem parse_video_with_metadata :
    ∀ (ctx : ParseCtx) (item : List (String × JSON)) (e : Bool) (v : Video),
      hasKey item "metadata" = true → parse_video ctx item e = .ok v →
      ∃ r, v = .released r := by
  intro ctx item e v hmeta hv
  simp [parse_video, hmeta, exceptMapOk] at hv
  obtain ⟨r, _, h⟩ := hv
  exact ⟨r, h.symm⟩

/-- The watchlist assignment does not change the unreleased-video
variant test. -/
theorem setInList_isUnreleased (m : Media) (b : Bool) :
    (m.setInList b).isUnreleasedVideo = m.isUnreleasedVideo := by
  cases m with
  | video v => cases v <;> rfl
  | collection c => rfl
  | series s => rfl
  | season s => rfl
  | movie mv => rfl

/-- The watchlist assignment does not change the released-video variant
test. -/
theorem setInList_isReleasedStrict (m : Media) (b : Bool) :
    (m.setInList b).isReleasedVideoStrict = m.isReleasedVideoStrict := by
  cases m with
  | video v => cases v <;> rfl
  | collection c => rfl
  | series s => rfl
  | season s => rfl
  | movie mv => rfl

/-- The watchlist assignment does not change the collection variant
test. -/
theorem setInList_isCollection (m : Media) (b : Bool) :
    (m.setInList b).isCollection = m.isCollection := by
  cases m with
  | video v => cases v <;> rfl
  | collection c => rfl
  | series s => rfl
  | season s => rfl
  | movie mv => rfl

/-- The play-state assignment does not change the unreleased-video
variant test. -/
theorem setPlayState_isUnreleased (m : Media) (ps : Option PlayState) :
    (m.setPlayState ps).isUnreleasedVideo = m.isUnreleasedVideo := by
  cases m with
  | video v => cases v <;> rfl
  | collection c => rfl
  | series s => rfl
  | season s => rfl
  | movie mv => rfl

/-- The play-state assignment does not change the released-video variant
test. -/
theorem setPlayState_isReleasedStrict (m : Media) (ps : Option PlayState) :
    (m.setPlayState ps).isReleasedVideoStrict = m.isReleasedVideoStrict := by
  cases m with
  | video v => cases v <;> rfl
  | collection c => rfl
  | series s => rfl
  | season s => rfl
  | movie mv => rfl

/-- The watchlist annotation step does not change the unreleased-video
variant test. -/
theorem annotate_isUnreleased (ctx : ParseCtx) (iml : Bool) (m : Media) :
    (annotate_in_list ctx iml m).isUnreleasedVideo = m.isUnreleasedVideo := by
  unfold annotate_in_list
  split
  · exact setInList_isUnreleased m true
  · split
    · exact setInList_isUnreleased m _
    · rfl

/-- The watchlist annotation step does not change the released-video
variant test. -/
theorem annotate_isReleasedStrict (ctx : ParseCtx) (iml : Bool) (m : Media) :
    (annotate_in_list ctx iml m).isReleasedVideoStrict = m.isReleasedVideoStrict := by
  unfold annotate_in_list
  split
  · exact setInList_isReleasedStrict m true
  · split
    · exact setInList_isReleasedStrict m _
    · rfl

/-- The watchlist annotation step does not change the collection variant
test. -/
theorem annotate_isCollection (ctx : ParseCtx) (iml : Bool) (m : Media) :
    (annotate_in_list ctx iml m).isCollection = m.isCollection := by
  unfold annotate_in_list
  split
  · exact setInList_isCollection m true
  · split
    · exact setInList_isCollection m _
    · rfl

/-- The embedded play-state merge does not change the media variant. -/
theorem merge_preserves :
    ∀ (fields : List (String × JSON)) (m m2 : Media) (need : Bool),
      merge_embedded_play_state fields m = .ok (m2, need) →
      m2.isUnreleasedVideo = m.isUnreleasedVideo ∧
      m2.isReleasedVideoStrict = m.isReleasedVideoStrict := by
  intro fields m m2 need h
  simp only [merge_embedded_play_state, Bind.bind, Except.bind, pure, Except.pure] at h
  repeat' (first | (split at h) | (simp at h))
  all_goals obtain ⟨h2, h3⟩ := h
  all_goals subst h2
  · exact ⟨setPlayState_isUnreleased m _, setPlayState_isReleasedStrict m _⟩
  all_goals exact ⟨rfl, rfl⟩

/-- A reserved slug makes collection parsing fail with the skip-worthy
ValueError, before any other field is read beyond the slug. -/
theorem parse_collection_reserved :
    ∀ (item : List (String × JSON)) (e x : Bool) (s : String),
      getItem item "slug" = .ok (.str s) → reservedCategories.contains s = true →
      parse_collection item e x = .error (.valueError "internal category, skipping") := by
  intro item e x s hslug hres
  rw [parse_collection]
  simp only [Bind.bind, Except.bind, hslug, asStr]
  rw [if_pos hres]

/-- C4: media dispatch on the type discriminator.  A payload (with no
entity wrapper) with type video and no metadata key parses to the
unreleased variant; with metadata present, to the released variant; a
payload with no type key parses to a collection, unless its slug is in
the fixed reserved set, in which case parsing fails with the
skip-worthy ValueError; an unrecognized type value raises a parse
error. -/
theorem media_dispatch :
    (∀ (ctx : ParseCtx) (ft iml : Bool) (fields : List (String × JSON)) (m : Media) (need : Bool),
      hasKey fields "entity" = false →
      pyGet fields "type" = some (.str "video") →
      hasKey fields "metadata" = false →
      parse_medium ctx (.obj fields) ft iml = .ok (m, need) →
      m.isUnreleasedVideo = true) ∧
    (∀ (ctx : ParseCtx) (ft iml : Bool) (fields : List (String × JSON)) (m : Media) (need : Bool),
      hasKey fields "entity" = false →
      pyGet fields "type" = some (.str "video") →
      hasKey fields "metadata" = true →
      parse_medium ctx (.obj fields) ft iml = .ok (m, need) →
      m.isReleasedVideoStrict = true) ∧
    (∀ (ctx : ParseCtx) (ft iml : Bool) (fields : List (String × JSON)) (m : Media) (need : Bool),
      hasKey fields "entity" = false →
      pyGet fields "type" = none →
      parse_medium ctx (.obj fields) ft iml = .ok (m, need) →
      m.isCollection = true) ∧
    (∀ (ctx : ParseCtx) (ft iml : Bool) (fields : List (String × JSON)) (s : String),
      hasKey fields "entity" = false →
      pyGet fields "type" = none →
      getItem fields "slug" = .ok (.str s) →
      reservedCategories.contains s = true →
      parse_medium ctx (.obj fields) ft iml =
        .error (.valueError "internal category, skipping")) ∧
    (∀ (ctx : ParseCtx) (ft iml : Bool) (fields : List (String × JSON)) (t : JSON),
      hasKey fields "entity" = false →
      pyGet fields "type" = some t →
      recognizedType t = false →
      parse_medium ctx (.obj fields) ft iml = .error (.valueError "unknown type")) := by
  refine ⟨?_, ?_, ?_, ?_, ?_⟩
  · intro ctx ft iml fields m need hent htype hmeta hp
    simp [parse_medium, Bind.bind, Except.bind, pure, Except.pure, asObj, hent, htype] at hp
    cases hv : parse_video ctx fields true with
    | error e => rw [hv] at hp; exact absurd hp (by simp)
    | ok v =>
      rw [hv] at hp
      dsimp only at hp
      obtain ⟨u, rfl⟩ := parse_video_no_metadata ctx fields true v hmeta hv
      cases hm : merge_embedded_play_state fields (Media.video (.unreleased u)) with
      | error e => rw [hm] at hp; exact absurd hp (by simp)
      | ok x =>
        rw [hm] at hp
        dsimp only at hp
        cases x with
        | mk a b =>
          obtain ⟨hpres, _⟩ := merge_preserves fields _ a b hm
          injection hp with hp1
          rw [Prod.mk.injEq] at hp1
          obtain ⟨h2, _⟩ := hp1
          subst h2
          rw [annotate_isUnreleased]
          exact hpres
  · intro ctx ft iml fields m need hent htype hmeta hp
    simp [parse_medium, Bind.bind, Except.bind, pure, Except.pure, asObj, hent, htype] at hp
    cases hv : parse_video ctx fields true with
    | error e => rw [hv] at hp; exact absurd hp (by simp)
    | ok v =>
      rw [hv] at hp
      dsimp only at hp
      obtain ⟨r, rfl⟩ := parse_video_with_metadata ctx fields true v hmeta hv
      cases hm : merge_embedded_play_state fields (Media.video (.released r)) with
      | error e => rw [hm] at hp; exact absurd hp (by simp)
      | ok x =>
        rw [hm] at hp
        dsimp only at hp
        cases x with
        | mk a b =>
          obtain ⟨_, hpres⟩ := merge_preserves fields _ a b hm
          injection hp with hp1
          rw [Prod.mk.injEq] at hp1
          obtain ⟨h2, _⟩ := hp1
          subst h2
          rw [annotate_isReleasedStrict]
          exact hpres
  · intro ctx ft iml fields m need hent htype hp
    simp [parse_medium, Bind.bind, Except.bind, pure, Except.pure, asObj, hent, htype] at hp
    cases hc : parse_collection fields true false with
    | error e => rw [hc] at hp; exact absurd hp (by simp)
    | ok c =>
      rw [hc] at hp
      dsimp only at hp
      injection hp with hp1
      rw [Prod.mk.injEq] at hp1
      obtain ⟨h2, _⟩ := hp1
      subst h2
      rw [annotate_isCollection]
      rfl
  · intro ctx ft iml fields s hent htype hslug hres
    have hcoll := parse_collection_reserved fields true false s hslug hres
    simp [parse_medium, Bind.bind, Except.bind, pure, Except.pure, asObj, hent, htype, hcoll]
  · intro ctx ft iml fields t hent htype hrec
    simp [parse_medium, Bind.bind, Except.bind, pure, Except.pure, asObj, hent, htype]
    cases t with
    | null => rfl
    | bool b => rfl
    | num n => rfl
    | arr xs => rfl
    | obj fs => rfl
    | str s =>
      have h1 : s ≠ "video" := by intro e; subst e; simp [recognizedType] at hrec
      have h2 : s ≠ "movie" := by intro e; subst e; simp [recognizedType] at hrec
      have h3 : s ≠ "season" := by intro e; subst e; simp [recognizedType] at hrec
      have h4 : s ≠ "series" := by intro e; subst e; simp [recognizedType] at hrec
      simp [h1, h2, h3, h4]

/-- C4 witness: the dispatch theorem applied to concrete payloads of
each kind. -/
theorem media_dispatch_witness :
    unrelParsed.1.isUnreleasedVideo = true ∧
    relParsed.1.isReleasedVideoStrict = true ∧
    collParsed.1.isCollection = true ∧
    parse_medium emptyCtx reservedItem false false =
      .error (.valueError "internal category, skipping") ∧
    parse_medium emptyCtx unknownTypeItem false false =
      .error (.valueError "unknown type") :=
  ⟨media_dispatch.1 emptyCtx false false unrelFields unrelParsed.1 unrelParsed.2
      rfl rfl rfl rfl,
   media_dispatch.2.1 emptyCtx false false relFields relParsed.1 relParsed.2
      rfl rfl rfl rfl,
   media_dispatch.2.2.1 emptyCtx false false collFields collParsed.1 collParsed.2
      rfl rfl rfl,
   media_dispatch.2.2.2.1 emptyCtx false false reservedFields "my-list" rfl rfl rfl rfl,
   media_dispatch.2.2.2.2 emptyCtx false false unknownTypeFields (.str "live_event")
      rfl rfl rfl⟩

/-- A status probe leaves the cached Credentials record untouched. -/
theorem update_status_credentials :
    ∀ (env : SessionEnv) (rs : RunSt) (b : Bool) (rs2 : RunSt),
      update_status env rs = .ok (b, rs2) → rs2.store.credentials = rs.store.credentials := by
  intro env rs b rs2 h
  simp only [update_status, Bind.bind, Except.bind, pure, Except.pure] at h
  repeat' (first | (split at h) | (simp at h))
  all_goals obtain ⟨h1, h2⟩ := h
  all_goals subst h2
  all_goals simp [websiteTouch, clear_auth_data]

/-- A token scrape leaves the cached Credentials record untouched. -/
theorem update_token_credentials :
    ∀ (env : SessionEnv) (rs : RunSt),
      (update_token env rs).2.store.credentials = rs.store.credentials := by
  intro env rs
  rcases henv : env.home rs.homeCalls with ⟨tok, uid⟩
  simp [update_token, henv, websiteTouch]

/-- The website probe-and-scrape path leaves the cached Credentials
record untouched. -/
theorem update_from_website_credentials :
    ∀ (env : SessionEnv) (rs : RunSt) (b : Bool) (rs2 : RunSt),
      update_from_website env rs = .ok (b, rs2) →
      rs2.store.credentials = rs.store.credentials := by
  intro env rs b rs2 h
  simp only [update_from_website, Bind.bind, Except.bind, pure, Except.pure] at h
  cases hs : update_status env rs with
  | error e => rw [hs] at h; exact absurd h (by simp)
  | ok p =>
    rw [hs] at h
    dsimp only at h
    obtain ⟨b1, rs1⟩ := p
    have hc1 := update_status_credentials env rs b1 rs1 hs
    split at h
    · injection h with h1
      rw [Prod.mk.injEq] at h1
      obtain ⟨_, h2⟩ := h1
      rw [← h2]
      rw [update_token_credentials env rs1]
      exact hc1
    · injection h with h1
      rw [Prod.mk.injEq] at h1
      obtain ⟨_, h2⟩ := h1
      rw [← h2]
      exact hc1

/-- A CSRF-token scrape leaves the cached Credentials record
untouched. -/
theorem get_auth_token_credentials :
    ∀ (env : SessionEnv) (meta : Bool) (rs : RunSt) (t : String) (rs2 : RunSt),
      get_authenticity_token env meta rs = .ok (t, rs2) →
      rs2.store.credentials = rs.store.credentials := by
  intro env meta rs t rs2 h
  simp only [get_authenticity_token] at h
  repeat' (first | (split at h) | (simp at h))
  all_goals obtain ⟨h1, h2⟩ := h
  all_goals subst h2
  all_goals simp [websiteTouch]

/-- The full login path leaves the cached Credentials record
untouched. -/
theorem do_login_credentials :
    ∀ (env : SessionEnv) (rs : RunSt) (b : Bool) (rs2 : RunSt),
      do_login env rs = .ok (b, rs2) → rs2.store.credentials = rs.store.credentials := by
  intro env rs b rs2 h
  simp only [do_login, Bind.bind, Except.bind, pure, Except.pure] at h
  split at h
  · simp at h
    obtain ⟨_, h2⟩ := h
    rw [← h2]
  · cases hg : get_authenticity_token env false rs with
    | error e => rw [hg] at h; exact absurd h (by simp)
    | ok p =>
      rw [hg] at h
      dsimp only at h
      obtain ⟨tk, rs1⟩ := p
      have hc1 := get_auth_token_credentials env false rs tk rs1 hg
      split at h
      · simp at h
        obtain ⟨_, h2⟩ := h
        rw [← h2]
        simpa [websiteTouch] using hc1
      · have hc2 := update_from_website_credentials env _ b rs2 h
        rw [hc2]
        simpa [websiteTouch] using hc1

/-- The probe-then-login tail of ensure_logged_in leaves the cached
Credentials record untouched. -/
theorem ensure_rest_credentials :
    ∀ (env : SessionEnv) (rs : RunSt) (b : Bool) (rs2 : RunSt),
      ensure_rest env rs = .ok (b, rs2) → rs2.store.credentials = rs.store.credentials := by
  intro env rs b rs2 h
  simp only [ensure_rest, Bind.bind, Except.bind, pure, Except.pure] at h
  cases hu : update_from_website env rs with
  | error e => rw [hu] at h; exact absurd h (by simp)
  | ok p =>
    rw [hu] at h
    dsimp only at h
    obtain ⟨b1, rs1⟩ := p
    have hc1 := update_from_website_credentials env rs b1 rs1 hu
    split at h
    · simp at h
      obtain ⟨_, h2⟩ := h
      rw [← h2]
      exact hc1
    · have hc2 := do_login_credentials env rs1 b rs2 h
      rw [hc2]
      exact hc1

/-- C5 counterexample: construction that discards a stale cached record
(matching hash, 600 seconds old) and then completes a fresh successful
login with a subscription via the website probe ends with no persisted
Credentials record, because the persist guard tests the pre-discard
record for absence. -/
theorem init_discard_path_no_persist :
    (apiInit envProbe staleStore).map
      (fun rs => (rs.store.credentials, rs.sess.logged_in, rs.sess.has_subscription)) =
    .ok (none, true, true) := rfl

/-- C5 amended: a fresh Credentials record is persisted after a
successful non-cached login with a subscription exactly when no cached
record existed at the start of construction; when a stale or
hash-mismatched record was discarded during the same construction, the
store ends with no record at all. -/
theorem init_credentials_persistence :
    (∀ (env : SessionEnv) (store0 : SessionStore) (rs : RunSt),
      store0.credentials = none →
      apiInit env store0 = .ok rs →
      rs.sess.logged_in = true →
      rs.sess.has_subscription = true →
      ∃ t u, rs.sess.token = some t ∧ rs.sess.user_id = some u ∧
        rs.store.credentials =
          some { hash := calculate_hash env, token := t, user_id := u, when := env.now }) ∧
    (∀ (env : SessionEnv) (store0 : SessionStore) (c : Credentials) (rs : RunSt),
      store0.credentials = some c →
      ¬(calculate_hash env = c.hash ∧ env.now - c.when < 5 * 60) →
      apiInit env store0 = .ok rs →
      rs.store.credentials = none) := by
  constructor
  · intro env store0 rs h0 hinit hlog hsub
    simp only [apiInit, Bind.bind, Except.bind, h0, Option.isNone_none, Bool.true_and] at hinit
    split at hinit
    · exact absurd hinit (by simp)
    · rename_i p heq
      split at hinit
      · split at hinit
        · rename_i t u htk huid
          injection hinit with h1
          subst h1
          exact ⟨t, u, htk, huid, rfl⟩
        · exact absurd hinit (by simp)
      · rename_i hcond
        injection hinit with h1
        subst h1
        rw [hlog, hsub] at hcond
        simp at hcond
  · intro env store0 c rs h0 hmiss hinit
    simp only [apiInit, Bind.bind, Except.bind, h0, ensure_logged_in] at hinit
    have hcond : (decide (calculate_hash env = c.hash) &&
        decide (env.now - c.when < 5 * 60)) = false := by
      by_cases hA : calculate_hash env = c.hash
      · by_cases hB : env.now - c.when < 5 * 60
        · exact absurd ⟨hA, hB⟩ hmiss
        · rw [decide_eq_false hB, Bool.and_false]
      · rw [decide_eq_false hA, Bool.false_and]
    rw [if_neg (by rw [hcond]; simp)] at hinit
    simp only [Option.isNone_some, Bool.false_and] at hinit
    split at hinit
    · exact absurd hinit (by simp)
    · rename_i p heq
      simp only [Bool.false_eq_true, if_false] at hinit
      injection hinit with h1
      subst h1
      have := ensure_rest_credentials env _ p.1 p.2 (by rw [heq])
      rw [this]

/-- C5 witness: the persistence characterization applied to a
construction from an empty store against the probe environment. -/
theorem init_credentials_persistence_witness :
    ∃ t u, freshRun.sess.token = some t ∧ freshRun.sess.user_id = some u ∧
      freshRun.store.credentials =
        some { hash := calculate_hash envProbe, token := t, user_id := u,
               when := envProbe.now } :=
  init_credentials_persistence.1 envProbe freshStore freshRun rfl rfl rfl rfl

/-- C6: logout POSTs with a freshly scraped CSRF token and clears the
cookie jar, the session cookies and the bearer token, but it never
deletes the cached Credentials record: the record present before logout
is still present afterwards. -/
theorem logout_keeps_cached_credentials :
    (logout envProbe logoutStart).map
      (fun rs => (rs.store.credentials, rs.store.cookieJar, rs.sess.token,
                  rs.sess.logged_in, rs.sess.has_subscription)) =
    .ok (some credLogout, [], none, false, false) := rfl

/-- C7 counterexample: a batch holding one video item with no id field
aborts with an uncaught KeyError instead of skipping the item and
returning the empty batch. -/
theorem parse_media_aborts_on_missing_key :
    parse_media emptyCtx [badVideoItem] false false false = .error (.keyError "id") := rfl

/-- C7 amended: per-item failures raised as ValueError (unknown type,
reserved slug, malformed date or int) are caught, logged and the item
skipped, with parsing continuing over the remaining items; failures of
other kinds, such as a KeyError from a missing required field,
propagate and abort the batch. -/
theorem parse_media_skips_value_errors :
    ∀ (ctx : ParseCtx) (ft fast iml : Bool) (bad : JSON) (msg : String) (rest : List JSON),
      parse_medium ctx bad ft iml = .error (.valueError msg) →
      parse_media ctx (bad :: rest) ft fast iml = parse_media ctx rest ft fast iml := by
  intro ctx ft fast iml bad msg rest h
  simp [parse_media, parseMediaLoop, h]

/-- C7 witness: a reserved-slug item, whose parse raises ValueError, is
skipped and the batch equals the batch without it. -/
theorem parse_media_skips_value_errors_witness :
    parse_media emptyCtx [reservedItem] false false false =
      parse_media emptyCtx [] false false false :=
  parse_media_skips_value_errors emptyCtx false false false reservedItem
    "internal category, skipping" [] rfl

/-- C8 counterexample: on a static fixture that keeps reporting a
further page, both collector dialects loop forever: no fuel bound ever
suffices, refuting termination for every response sequence. -/
theorem collector_loops_on_static_fixture :
    collectorDiverges false staticTvServer true "u" ∧
    collectorDiverges false staticComServer false "t" := by
  constructor
  · intro fuel
    induction fuel with
    | zero => intro acc; rfl
    | succ n ih =>
      intro acc
      have hstep : collectStep false staticTvServer true "u" acc =
          .ok (.inr ("u", acc ++ [])) := rfl
      simp only [collectPages, Bind.bind, Except.bind, hstep]
      rw [List.append_nil]
      exact ih acc
  · have key : ∀ (n : Nat) (url : String) (acc : List JSON),
        collectPages false staticComServer false n url acc = .ok none := by
      intro n
      induction n with
      | zero => intro url acc; rfl
      | succ k ih =>
        intro url acc
        have hstep : collectStep false staticComServer false url acc =
            .ok (.inr (String.mk (substFormat (1 + 1) 25 "t".toList), acc ++ [])) := rfl
        simp only [collectPages, Bind.bind, Except.bind, hstep]
        rw [List.append_nil]
        exact ih _ acc
    intro fuel acc
    exact key fuel "t" acc

/-- C8 amended: the collector stops, returning the accumulated items,
as soon as the response reports no further page: for the hypermedia
dialect when _links.next.href is absent, for the counter dialect when
count is at most page times per_page.  Termination is guaranteed only
when the response sequence eventually reports no further page. -/
theorem collector_stops_when_no_next :
    (∀ (debug : Bool) (server : Server) (url : String) (acc : List JSON) (fuel : Nat)
       (itemsArr : List JSON) (nextFields : List (String × JSON)),
      server.respond url = some (.obj [("_embedded", .obj [("items", .arr itemsArr)]),
        ("_links", .obj [("next", .obj nextFields)])]) →
      pyGet nextFields "href" = none →
      collectPages debug server true (fuel + 1) url acc = .ok (some (acc ++ itemsArr))) ∧
    (∀ (debug : Bool) (server : Server) (url : String) (acc : List JSON) (fuel : Nat)
       (itemsArr : List JSON) (count pageN per : Int),
      server.respond url = some (.obj [("items", .arr itemsArr),
        ("pagination", .obj [("count", .num count), ("page", .num pageN),
          ("per_page", .num per)])]) →
      count ≤ pageN * per →
      collectPages debug server false (fuel + 1) url acc = .ok (some (acc ++ itemsArr))) := by
  constructor
  · intro debug server url acc fuel itemsArr nextFields hresp hhref
    simp [collectPages, collectStep, Bind.bind, Except.bind, hresp, asObj, pyGetD,
      asArr, hhref, getItem, JSON.lookupField]
  · intro debug server url acc fuel itemsArr count pageN per hresp hcount
    simp [collectPages, collectStep, Bind.bind, Except.bind, hresp, asObj, pyGetD,
      asArr, asInt, getItem, JSON.lookupField, hcount]

/-- C8 witness: the stopping theorem applied to the hypermedia fixture
whose next link has no href; one request suffices and the items are
returned. -/
theorem collector_stops_when_no_next_witness :
    collectPages false finalTvServer true 1 "x" [] = .ok (some [.num 1]) := by
  have h := collector_stops_when_no_next.1 false finalTvServer "x" [] 0 [.num 1] [] rfl rfl
  simpa using h

/-- C9: the recent-searches list is claimed to be de-duplicated by term;
on the code, adding the same term twice stores two entries, because the
membership test compares the raw term string against the stored entry
dicts and is therefore always false. -/
theorem add_search_duplicates_term :
    searchFileTwo =
      [("searches", JSON.arr [.obj [("search", .str "foo"), ("first", .str "t1")],
                              .obj [("search", .str "foo"), ("first", .str "t2")]])] := rfl

/-- C10: provenance of play states.  Every PlayState read from the local
store carries from_us = true; every PlayState parsed from a remote
payload carries from_us = false; and the continue-watching filter drops
a media item exactly when it is a released video whose play state is
present, completed and locally sourced. -/
theorem play_state_provenance :
    (∀ (store : PlayStore) (id : Int) (ps : PlayState),
      Config.get_playstate store id = .ok (some ps) → ps.from_us = true) ∧
    (∀ (raw : List (String × JSON)) (ps : PlayState),
      parse_play_state raw = .ok ps → ps.from_us = false) ∧
    (∀ m : Media, continueWatchingKeep m = false ↔
      m.isReleasedInstance = true ∧ ∃ ps, m.playState = some ps ∧
        ps.completed = true ∧ ps.from_us = true) := by
  refine ⟨?_, ?_, ?_⟩
  · intro store id ps h
    simp only [Config.get_playstate, Bind.bind, Except.bind] at h
    repeat' (first | (split at h) | (simp at h))
    all_goals (subst h; rfl)
  · intro raw ps h
    simp only [parse_play_state, Bind.bind, Except.bind] at h
    repeat' (first | (split at h) | (simp at h))
    all_goals (subst h; rfl)
  · intro m
    cases m with
    | collection c => simp [continueWatchingKeep, Media.isReleasedInstance, Media.playState]
    | series s => simp [continueWatchingKeep, Media.isReleasedInstance, Media.playState]
    | season s => simp [continueWatchingKeep, Media.isReleasedInstance, Media.playState]
    | video v =>
      cases v with
      | unreleased u => simp [continueWatchingKeep, Media.isReleasedInstance, Media.playState]
      | released r =>
        cases hps : r.play_state with
        | none => simp [continueWatchingKeep, Media.isReleasedInstance, Media.playState, hps]
        | some ps =>
          simp [continueWatchingKeep, Media.isReleasedInstance, Media.playState, hps]
    | movie mv =>
      cases hps : mv.play_state with
      | none => simp [continueWatchingKeep, Media.isReleasedInstance, Media.playState, hps]
      | some ps =>
        simp [continueWatchingKeep, Media.isReleasedInstance, Media.playState, hps]

/-- C10 witness: the provenance theorem applied to a concrete local
store read, a concrete remote entry, and a completed locally sourced
released video that the filter drops. -/
theorem play_state_provenance_witness :
    ps42.from_us = true ∧ psRemote.from_us = false ∧
    continueWatchingKeep droppedMedia = false :=
  ⟨play_state_provenance.1 playFile42 42 ps42 rfl,
   play_state_provenance.2.1 remoteEntry psRemote rfl,
   (play_state_provenance.2.2 droppedMedia).mpr ⟨rfl, ⟨_, rfl, rfl, rfl⟩⟩⟩
